import Mathlib

/-!
Shallow embedding of the multi-instance local dispatch fabric of the
`clankercontext` repository:

* `InstanceRegistry` (registry store, heartbeat, register/unregister) from
  `vscode-extension/src/registry/InstanceRegistry.ts`;
* `HttpServer` (origin policy, routing, `/instance/{id}/send` semantics,
  loopback port binding) from `vscode-extension/src/server/HttpServer.ts`;
* the discovery verification of `src/background/VSCodeClient.ts`;
* the startup sequence of `vscode-extension/src/extension.ts`.

Timestamps are modelled as `Int` (JS epoch milliseconds with JS `-`
semantics); the registry file is modelled by its parsed list of records
(`readRegistryUnsafe` maps a corrupt file to the empty list, so every
claim below is stated over the parsed list).
-/

namespace ClankerContext

/-- Constant from `InstanceRegistry.ts`: heartbeat period, 10 seconds. -/
def HEARTBEAT_INTERVAL : Int := 10000

/-- Constant from `InstanceRegistry.ts`: a record older than this is stale. -/
def STALE_THRESHOLD : Int := 20000

/-- Constant from `HttpServer.ts`: `MAX_PORT_ATTEMPTS = 100`. -/
def MAX_PORT_ATTEMPTS : Nat := 100

/-- The interface the listener binds to (`server.listen(port, '127.0.0.1')`). -/
def LOOPBACK_HOST : String := "127.0.0.1"

/-- `InstanceInfo` from `types.ts`. -/
structure InstanceInfo where
  id : String
  name : String
  workspacePath : String
  port : Nat
  pid : Nat
  lastHeartbeat : Int
deriving Repr, DecidableEq

/-- `HealthResponse` from `types.ts`. -/
structure HealthResponse where
  healthy : Bool
  version : String
  copilotAvailable : Bool
  workspaceName : String
  workspacePath : String
  instanceId : String
  port : Nat
  pid : Nat
  uptime : Nat
deriving Repr, DecidableEq

/-- The identity fields an `InstanceRegistry` object holds for its own
process (`instanceId`, `instanceName`, `workspacePath`, `port`, `pid`). -/
structure RegistrySelf where
  instanceId : String
  instanceName : String
  workspacePath : String
  port : Nat
  pid : Nat
deriving Repr, DecidableEq

/-- The full record `register` / `updateHeartbeat` build for this instance
(`{ id, name, workspacePath, port, pid, lastHeartbeat: Date.now() }`). -/
def selfRecord (self : RegistrySelf) (now : Int) : InstanceInfo :=
  { id := self.instanceId
    name := self.instanceName
    workspacePath := self.workspacePath
    port := self.port
    pid := self.pid
    lastHeartbeat := now }

/-- `cleanStaleInstances`: keep a record exactly when
`now - instance.lastHeartbeat < STALE_THRESHOLD`. -/
def cleanStaleInstances (now : Int) (instances : List InstanceInfo) :
    List InstanceInfo :=
  instances.filter (fun i => now - i.lastHeartbeat < STALE_THRESHOLD)

/-- `modifyRegistry`: under the file lock, read, clean stale records, apply
the modifier, write back atomically.  The file contents are the state. -/
def modifyRegistry (now : Int) (modifier : List InstanceInfo → List InstanceInfo)
    (instances : List InstanceInfo) : List InstanceInfo :=
  modifier (cleanStaleInstances now instances)

/-- `getAllInstances`: non-locking read of the registry file followed by
`cleanStaleInstances` (a corrupt file reads as the empty list). -/
def getAllInstances (now : Int) (fileInstances : List InstanceInfo) :
    List InstanceInfo :=
  cleanStaleInstances now fileInstances

/-- The modifier `register` passes to `modifyRegistry`: drop any record with
this instance's id, then push a fresh full record. -/
def registerModifier (self : RegistrySelf) (now : Int)
    (instances : List InstanceInfo) : List InstanceInfo :=
  instances.filter (fun i => i.id != self.instanceId) ++ [selfRecord self now]

/-- `register`: `modifyRegistry` with `registerModifier`. -/
def register (self : RegistrySelf) (now : Int)
    (instances : List InstanceInfo) : List InstanceInfo :=
  modifyRegistry now (registerModifier self now) instances

/-- `unregister`: `modifyRegistry` with a modifier that filters out this
instance's id. -/
def unregister (self : RegistrySelf) (now : Int)
    (instances : List InstanceInfo) : List InstanceInfo :=
  modifyRegistry now (fun instances => instances.filter (fun i => i.id != self.instanceId)) instances

/-- The modifier `updateHeartbeat` passes to `modifyRegistry`: `findIndex`
the first record with this instance's id; if found, mutate that record's
`lastHeartbeat` to `now` and its `port` to the bound port; otherwise push a
full record at the end.  Rendered as structural recursion over the list:
non-matching heads are kept unchanged, the first match is updated in place,
and when no record matches the fresh record lands at the end. -/
def updateHeartbeatModifier (self : RegistrySelf) (now : Int) :
    List InstanceInfo → List InstanceInfo
  | [] => [selfRecord self now]
  | i :: rest =>
    if i.id = self.instanceId then
      { i with lastHeartbeat := now, port := self.port } :: rest
    else
      i :: updateHeartbeatModifier self now rest

/-- `updateHeartbeat`: one heartbeat tick, `modifyRegistry` with
`updateHeartbeatModifier`. -/
def updateHeartbeat (self : RegistrySelf) (now : Int)
    (instances : List InstanceInfo) : List InstanceInfo :=
  modifyRegistry now (updateHeartbeatModifier self now) instances

/-! HTTP surface (`vscode-extension/src/server/HttpServer.ts`). -/

/-- Allowed browser-extension origin scheme prefixes
(`ALLOWED_ORIGIN_PREFIXES` in `HttpServer.ts`). -/
def ALLOWED_ORIGIN_SCHEMES : List String :=
  ["chrome-extension://", "moz-extension://"]

/-- JS `origin.startsWith(p)`, rendered on the character lists so that it
evaluates structurally. -/
def strStartsWith (s p : String) : Bool :=
  p.data.isPrefixOf s.data

/-- `isAllowedOrigin(origin: string | undefined)`: `!origin` (undefined or
the empty string) and the literal `'null'` are allowed, then any origin
starting with an allowed browser-extension scheme. -/
def isAllowedOrigin (origin : Option String) : Bool :=
  match origin with
  | none => true
  | some o =>
    if o = "" || o = "null" then true
    else ALLOWED_ORIGIN_SCHEMES.any (fun p => strStartsWith o p)

/-- JS `origin || undefined`: collapse an empty-string header value to
absent (this is the `validOrigin` computation of `handleRequest`, and the
truthiness test `if (origin)` of `sendJson` / `handleCors`). -/
def jsPresent : Option String → Option String
  | none => none
  | some o => if o = "" then none else some o

/-- A JSON value, as produced by `JSON.parse` on the request body. -/
inductive JsonValue where
  | str (s : String)
  | num (n : Int)
  | bool (b : Bool)
  | null
  | arr (elems : List JsonValue)
  | obj (fields : List (String × JsonValue))
deriving Repr

/-- Outcome of a JS property read `body.content` on a parsed JSON value. -/
inductive FieldRead where
  /-- The read threw a `TypeError` with the given message (property access
  on `null`). -/
  | thrown (msg : String)
  /-- The read produced `undefined` (missing key, or a primitive / array
  receiver, where property access is boxed and does not throw). -/
  | undefined
  /-- The read produced the field's value. -/
  | val (c : JsonValue)

/-- The message of the `TypeError` thrown by reading a property of `null`.
The exact runtime text quotes the key; the quotes are elided here. -/
def nullFieldReadError (key : String) : String :=
  "Cannot read properties of null (reading " ++ key ++ ")"

/-- Field lookup on a parsed JSON value (`body.content`): reading a
property of `null` throws; non-object receivers and missing keys give
`undefined`; on objects the first binding wins. -/
def jsonField (v : JsonValue) (key : String) : FieldRead :=
  match v with
  | .null => .thrown (nullFieldReadError key)
  | .obj fields =>
    match fields.lookup key with
    | some c => .val c
    | none => .undefined
  | _ => .undefined

/-- The validation `!body.content || typeof body.content !== 'string'` of
`handleSend`, for an already-read field value (no further throw is
possible there), as the complementary success test: the value is a
string and is not the empty string (the empty string is falsy in JS). -/
def contentValid (c : JsonValue) : Bool :=
  match c with
  | .str s => s != ""
  | _ => false

/-- Outcome of `parseBody` on the raw request body: the body exceeded
`MAX_BODY_SIZE` (rejected `Request body too large`), `JSON.parse` threw
(rejected `Invalid JSON`), or a JSON value was produced (an empty body
resolves to the empty object). -/
inductive ParseOutcome where
  | tooLarge
  | invalidJson
  | parsed (v : JsonValue)
deriving Repr

/-- Response bodies the server writes, mirroring the literal objects in
`HttpServer.ts`. -/
inductive RespBody where
  /-- `{ error }` — the 403 body and the generic error bodies. -/
  | errorOnly (error : String)
  /-- `SendResponse`: `{ success }` or `{ success, error }`. -/
  | send (success : Bool) (error : Option String)
  /-- `HealthResponse` body. -/
  | health (h : HealthResponse)
  /-- `InstancesResponse`: `{ instances }`. -/
  | instances (l : List InstanceInfo)
  /-- No body (the 204 preflight response). -/
  | empty
deriving Repr, DecidableEq

/-- An HTTP response: status code, headers in writing order, body. -/
structure HttpResponse where
  status : Nat
  headers : List (String × String)
  body : RespBody
deriving Repr, DecidableEq

/-- The incoming request data `handleRequest` consumes: method, pathname
(of `new URL(url).pathname`), `Origin` header (`none` = header absent),
and the outcome of reading/parsing the body. -/
structure HttpRequest where
  method : String
  pathname : String
  origin : Option String
  body : ParseOutcome
deriving Repr

/-- The server-side environment a request is handled against: this
instance's registry identity and snapshot, Copilot availability, and the
outcome `sendToCopilot` would have (`Except.error` = the call threw). -/
structure ServerEnv where
  localId : String
  version : String
  workspaceName : String
  workspacePath : String
  port : Nat
  pid : Nat
  uptime : Nat
  registryFile : List InstanceInfo
  now : Int
  copilotAvailable : Bool
  sendToCopilot : Except String Unit
deriving Repr

/-- `sendJson`: `Content-Type` plus the CORS `Allow-*` headers, and
`Access-Control-Allow-Origin` exactly when the (truthy) origin is
present, echoed verbatim. -/
def sendJson (statusCode : Nat) (data : RespBody) (origin : Option String) :
    HttpResponse :=
  { status := statusCode
    headers := [("Content-Type", "application/json"),
                ("Access-Control-Allow-Methods", "GET, POST, OPTIONS"),
                ("Access-Control-Allow-Headers", "Content-Type")] ++
      (match jsPresent origin with
       | some o => [("Access-Control-Allow-Origin", o)]
       | none => [])
    body := data }

/-- `handleCors`: the 204 preflight response. -/
def handleCors (origin : Option String) : HttpResponse :=
  { status := 204
    headers := [("Access-Control-Allow-Methods", "GET, POST, OPTIONS"),
                ("Access-Control-Allow-Headers", "Content-Type")] ++
      (match jsPresent origin with
       | some o => [("Access-Control-Allow-Origin", o)]
       | none => [])
    body := .empty }

/-- `handleHealth`: 200 with the instance summary. -/
def handleHealth (env : ServerEnv) (origin : Option String) : HttpResponse :=
  sendJson 200 (.health
    { healthy := true
      version := env.version
      copilotAvailable := env.copilotAvailable
      workspaceName := env.workspaceName
      workspacePath := env.workspacePath
      instanceId := env.localId
      port := env.port
      pid := env.pid
      uptime := env.uptime }) origin

/-- `handleGetInstances`: 200 with `registry.getAllInstances()`. -/
def handleGetInstances (env : ServerEnv) (origin : Option String) : HttpResponse :=
  sendJson 200 (.instances (getAllInstances env.now env.registryFile)) origin

/-- `handleSend`: id check (404), then the read of `body.content` — which
throws out of the handler when the body is `null` (`Except.error`) — then
content validation (400), then Copilot availability (503), then the
`sendToCopilot` call (200 / 500). -/
def handleSend (env : ServerEnv) (instanceId : String) (body : JsonValue)
    (origin : Option String) : Except String HttpResponse :=
  if instanceId != env.localId then
    .ok (sendJson 404 (.send false (some "Instance not found on this server"))
      origin)
  else
    match jsonField body "content" with
    | .thrown msg => .error msg
    | .undefined =>
      .ok (sendJson 400 (.send false (some "Missing or invalid content"))
        origin)
    | .val c =>
      if !(contentValid c) then
        .ok (sendJson 400 (.send false (some "Missing or invalid content"))
          origin)
      else if !env.copilotAvailable then
        .ok (sendJson 503
          (.send false (some "GitHub Copilot Chat is not installed")) origin)
      else
        match env.sendToCopilot with
        | .ok _ => .ok (sendJson 200 (.send true none) origin)
        | .error msg => .ok (sendJson 500 (.send false (some msg)) origin)

/-- The send route as `handleRequest` runs it: `await handleSend`, with a
thrown error landing in the surrounding `catch` and answered 500 with the
error message. -/
def runSendRoute (env : ServerEnv) (instanceId : String) (body : JsonValue)
    (origin : Option String) : HttpResponse :=
  match handleSend env instanceId body origin with
  | .ok resp => resp
  | .error msg => sendJson 500 (.errorOnly msg) origin

/-- The route pattern `^\/instance\/([^/]+)\/send$`: returns the captured
id when the pathname is `/instance/` + a non-empty slash-free segment +
`/send`. -/
def matchSendPath (pathname : String) : Option String :=
  let cs := pathname.data
  let pre := "/instance/".data
  let suf := "/send".data
  if pre.isPrefixOf cs && suf.isSuffixOf (cs.drop pre.length) then
    let mid := (cs.drop pre.length).take ((cs.drop pre.length).length - suf.length)
    if mid.length > 0 && mid.all (fun c => c != '/') then
      some (String.mk mid)
    else none
  else none

/-- The message of the error `parseBody` rejects with, surfaced by the
generic `catch` of `handleRequest`. -/
def parseErrorMessage : ParseOutcome → String
  | .tooLarge => "Request body too large"
  | .invalidJson => "Invalid JSON"
  | .parsed _ => ""

/-- `handleRequest`: origin gate (403, bare `Content-Type` header), CORS
preflight, routing, body parsing for the send route (a parse failure is
caught by the surrounding `try` and answered with 500), unknown-route
404. -/
def handleRequest (env : ServerEnv) (req : HttpRequest) : HttpResponse :=
  if !(isAllowedOrigin req.origin) then
    { status := 403
      headers := [("Content-Type", "application/json")]
      body := .errorOnly "Forbidden: invalid origin" }
  else
    let validOrigin := jsPresent req.origin
    if req.method = "OPTIONS" then
      handleCors validOrigin
    else if req.method = "GET" && req.pathname = "/health" then
      handleHealth env validOrigin
    else if req.method = "GET" && req.pathname = "/instances" then
      handleGetInstances env validOrigin
    else
      match matchSendPath req.pathname with
      | some instanceId =>
        if req.method = "POST" then
          match req.body with
          | .parsed v => runSendRoute env instanceId v validOrigin
          | outcome =>
            sendJson 500 (.errorOnly (parseErrorMessage outcome)) validOrigin
        else
          sendJson 404 (.errorOnly "Not found") validOrigin
      | none =>
        sendJson 404 (.errorOnly "Not found") validOrigin

/-! Port binder (`tryPort` in `HttpServer.ts`) and the startup sequence
(`startServer` in `extension.ts`). -/

/-- `tryPort(port, maxAttempts)`, with the environment abstracted as the
set `inUse` of ports whose `listen` fails with `EADDRINUSE`.  Returns the
list of `(port, host)` pairs passed to `server.listen` in order, and the
successfully bound port (`none` = `Could not find an available port`,
the rejection taken when `maxAttempts <= 0` before any listen call). -/
def tryPort (inUse : Nat → Bool) : Nat → Nat → List (Nat × String) × Option Nat
  | _, 0 => ([], none)
  | port, maxAttempts + 1 =>
    if inUse port then
      let rest := tryPort inUse (port + 1) maxAttempts
      ((port, LOOPBACK_HOST) :: rest.1, rest.2)
    else
      ([(port, LOOPBACK_HOST)], some port)

/-- `HttpServer.start()`: `tryPort(this.port)` with the default
`MAX_PORT_ATTEMPTS` budget; the result is the bound port. -/
def serverStart (inUse : Nat → Bool) (preferredPort : Nat) : Option Nat :=
  (tryPort inUse preferredPort MAX_PORT_ATTEMPTS).2

/-- The registry effect of `startServer` in `extension.ts`: on a successful
`server.start()` the registry identity gets the actual port
(`registry.setPort`) and `registry.register()` runs; when `start` rejects
the error is only displayed and nothing is registered. -/
def startServerRegistry (inUse : Nat → Bool) (preferredPort : Nat)
    (self : RegistrySelf) (now : Int) (fileInstances : List InstanceInfo) :
    List InstanceInfo :=
  match serverStart inUse preferredPort with
  | some actualPort => register { self with port := actualPort } now fileInstances
  | none => fileInstances

/-! Discovery client (`src/background/VSCodeClient.ts`). -/

/-- The verification loop of `discoverInstances`: an instance obtained from
`GET /instances` is kept exactly when the `/health` probe of its own port
answers within the timeout (`probe instance.port = some h`; `none` covers
network failure, timeout and non-2xx status) with `healthy` set and with
`instanceId` equal to the record's `id`.  Failing records are skipped, not
reported. -/
def discoverVerify (probe : Nat → Option HealthResponse)
    (registered : List InstanceInfo) : List InstanceInfo :=
  registered.filter (fun i =>
    match probe i.port with
    | some health => health.healthy && health.instanceId == i.id
    | none => false)

/-! Concrete fixtures used by witness and counterexample theorems. -/

/-- A concrete server environment whose instance id is `me`. -/
def sampleEnv : ServerEnv :=
  { localId := "me", version := "1.0.0", workspaceName := "w",
    workspacePath := "/w", port := 41970, pid := 7, uptime := 3,
    registryFile := [], now := 0, copilotAvailable := true,
    sendToCopilot := .ok () }

/-- A concrete registry identity. -/
def sampleSelf : RegistrySelf :=
  { instanceId := "100-abcd1234", instanceName := "w",
    workspacePath := "/w", port := 41970, pid := 100 }

/-- A concrete record owned by a different instance. -/
def otherRecord : InstanceInfo :=
  { id := "200-ffff0000", name := "o", workspacePath := "/o",
    port := 41971, pid := 200, lastHeartbeat := 500 }

/-- A concrete record whose age at time 20000 is exactly the stale
threshold. -/
def boundaryRecord : InstanceInfo :=
  { id := "300-00000000", name := "b", workspacePath := "/b",
    port := 41972, pid := 300, lastHeartbeat := 0 }

/-- A health report that matches `boundaryRecord`'s id but is not healthy. -/
def unhealthyReport : HealthResponse :=
  { healthy := false, version := "1.0.0", copilotAvailable := false,
    workspaceName := "w", workspacePath := "/w",
    instanceId := "300-00000000", port := 41972, pid := 300, uptime := 9 }

/-- A probe environment that answers every port with `unhealthyReport`. -/
def unhealthyProbe : Nat → Option HealthResponse :=
  fun _ => some unhealthyReport

/-- A healthy report matching `otherRecord`. -/
def healthyReport : HealthResponse :=
  { healthy := true, version := "1.0.0", copilotAvailable := true,
    workspaceName := "o", workspacePath := "/o",
    instanceId := "200-ffff0000", port := 41971, pid := 200, uptime := 1 }

/-- Zero out `lastHeartbeat`, the equivalence used to compare registry
states "up to lastHeartbeat". -/
def stripHeartbeat (r : InstanceInfo) : InstanceInfo :=
  { r with lastHeartbeat := 0 }

/-! Shared lemmas. -/

/-- Membership in the stale filter. -/
lemma mem_cleanStaleInstances (now : Int) (l : List InstanceInfo)
    (r : InstanceInfo) :
    r ∈ cleanStaleInstances now l ↔
      r ∈ l ∧ now - r.lastHeartbeat < STALE_THRESHOLD := by
  simp [cleanStaleInstances, List.mem_filter]

/-- The stale filter is the identity on a list of fresh records. -/
lemma cleanStaleInstances_of_fresh (now : Int) (l : List InstanceInfo)
    (h : ∀ r ∈ l, now - r.lastHeartbeat < STALE_THRESHOLD) :
    cleanStaleInstances now l = l := by
  unfold cleanStaleInstances
  apply List.filter_eq_self.mpr
  intro a ha
  exact decide_eq_true (h a ha)

/-- The stale filter distributes over append. -/
lemma cleanStaleInstances_append (now : Int) (l1 l2 : List InstanceInfo) :
    cleanStaleInstances now (l1 ++ l2) =
      cleanStaleInstances now l1 ++ cleanStaleInstances now l2 := by
  simp [cleanStaleInstances, List.filter_append]

/-- Exhaustion: when every port offered within the fuel budget is in use,
`tryPort` reports no bound port. -/
lemma tryPort_exhausted (inUse : Nat → Bool) :
    ∀ (fuel port : Nat), (∀ i, i < fuel → inUse (port + i) = true) →
      (tryPort inUse port fuel).2 = none := by
  intro fuel
  induction fuel with
  | zero => intro port _; rfl
  | succ n ih =>
    intro port h
    have h0 : inUse port = true := by simpa using h 0 (Nat.succ_pos n)
    have hrest : ∀ i, i < n → inUse (port + 1 + i) = true := by
      intro i hi
      have := h (i + 1) (Nat.succ_lt_succ hi)
      simpa [Nat.add_assoc, Nat.add_comm 1 i] using this
    simp [tryPort, h0, ih (port + 1) hrest]

/-- First success: the first free port in the budget is the bound port. -/
lemma tryPort_first_free (inUse : Nat → Bool) :
    ∀ (fuel i port : Nat), i < fuel → inUse (port + i) = false →
      (∀ j, j < i → inUse (port + j) = true) →
      (tryPort inUse port fuel).2 = some (port + i) := by
  intro fuel
  induction fuel with
  | zero => intro i port hi; exact absurd hi (Nat.not_lt_zero i)
  | succ n ih =>
    intro i port hi hfree hbusy
    cases i with
    | zero =>
      have h0 : inUse port = false := by simpa using hfree
      simp [tryPort, h0]
    | succ k =>
      have h0 : inUse port = true := by simpa using hbusy 0 (Nat.succ_pos k)
      have hfree' : inUse (port + 1 + k) = false := by
        simpa [Nat.add_assoc, Nat.add_comm 1 k] using hfree
      have hbusy' : ∀ j, j < k → inUse (port + 1 + j) = true := by
        intro j hj
        have := hbusy (j + 1) (Nat.succ_lt_succ hj)
        simpa [Nat.add_assoc, Nat.add_comm 1 j] using this
      have := ih k (port + 1) (Nat.lt_of_succ_lt_succ hi) hfree' hbusy'
      simp [tryPort, h0, this, Nat.add_assoc, Nat.add_comm 1 k]

/-- The ports attempted by `tryPort` are consecutive, starting at the
preferred port. -/
lemma tryPort_attempts_consecutive (inUse : Nat → Bool) :
    ∀ (fuel port : Nat),
      ((tryPort inUse port fuel).1.map Prod.fst) =
        List.range' port ((tryPort inUse port fuel).1.length) := by
  intro fuel
  induction fuel with
  | zero => intro port; rfl
  | succ n ih =>
    intro port
    by_cases h : inUse port = true
    · simp [tryPort, h, ih (port + 1), List.range'_succ]
    · simp at h
      simp [tryPort, h, List.range'_succ]

/-! Claim theorems. -/

/-- C1: every `listen` call `tryPort` issues — the initial attempt and every
retry after an address-in-use failure — binds to `127.0.0.1`, never to any
other interface such as `0.0.0.0`. -/
theorem C1_bind_loopback_only (inUse : Nat → Bool) (port fuel : Nat)
    (attempt : Nat × String)
    (h : attempt ∈ (tryPort inUse port fuel).1) :
    attempt.2 = LOOPBACK_HOST ∧ attempt.2 ≠ "0.0.0.0" := by
  have hl : attempt.2 = LOOPBACK_HOST := by
    induction fuel generalizing port with
    | zero => simp [tryPort] at h
    | succ n ih =>
      by_cases hu : inUse port = true
      · simp [tryPort, hu] at h
        rcases h with h | h
        · rw [h]
        · exact ih (port + 1) h
      · simp at hu
        simp [tryPort, hu] at h
        rw [h]
  refine ⟨hl, ?_⟩
  rw [hl]
  decide

/-- C1 witness: the successful solo bind attempts `(41970, 127.0.0.1)`. -/
theorem C1_bind_loopback_only_witness :
    ((41970, LOOPBACK_HOST) : Nat × String).2 = LOOPBACK_HOST ∧
      ((41970, LOOPBACK_HOST) : Nat × String).2 ≠ "0.0.0.0" :=
  C1_bind_loopback_only (fun _ => false) 41970 MAX_PORT_ATTEMPTS
    (41970, LOOPBACK_HOST) (by decide)

/-- C5 counterexample: a record whose age equals the stale threshold
exactly (20000 ms) is purged by `cleanStaleInstances` although its age does
not exceed the threshold, so "stale exactly when age exceeds the
threshold" fails at the boundary. -/
theorem C5_boundary_counterexample :
    cleanStaleInstances 20000 [boundaryRecord] = [] ∧
      ¬ ((20000 : Int) - boundaryRecord.lastHeartbeat > STALE_THRESHOLD) := by
  constructor
  · decide
  · decide

/-- C5 (amended): stale filtering runs on every read — `getAllInstances`
and the read inside `modifyRegistry` — so every returned or rewritten
record is younger than the stale threshold; a record of the registry is
kept exactly when `now - lastHeartbeat < STALE_THRESHOLD` (purged as soon
as its age reaches the threshold, not only strictly beyond it); and the
stale threshold is at least twice the heartbeat interval. -/
theorem C5_stale_filtering :
    (∀ (now : Int) (l : List InstanceInfo) (r : InstanceInfo),
        r ∈ getAllInstances now l → now - r.lastHeartbeat < STALE_THRESHOLD) ∧
    (∀ (now : Int) (f : List InstanceInfo → List InstanceInfo)
        (l : List InstanceInfo),
        modifyRegistry now f l = f (cleanStaleInstances now l)) ∧
    (∀ (now : Int) (l : List InstanceInfo) (r : InstanceInfo), r ∈ l →
        (r ∈ cleanStaleInstances now l ↔
          now - r.lastHeartbeat < STALE_THRESHOLD)) ∧
    STALE_THRESHOLD ≥ 2 * HEARTBEAT_INTERVAL := by
  refine ⟨?_, ?_, ?_, ?_⟩
  · intro now l r hr
    exact ((mem_cleanStaleInstances now l r).mp hr).2
  · intro now f l
    rfl
  · intro now l r hr
    rw [mem_cleanStaleInstances]
    simp [hr]
  · decide

/-- C5 witness: a fresh record is kept by the snapshot read. -/
theorem C5_stale_filtering_witness :
    otherRecord ∈ cleanStaleInstances 1000 [otherRecord] ↔
      (1000 : Int) - otherRecord.lastHeartbeat < STALE_THRESHOLD :=
  C5_stale_filtering.2.2.1 1000 [otherRecord] otherRecord (by decide)

/-- C7: port selection starts at the preferred port and walks consecutive
ports; it stops at the first port whose bind succeeds and returns that
port; when all `MAX_PORT_ATTEMPTS = 100` ports are in use the start fails
(`none`, the `Could not find an available port` rejection) and
`startServer` inserts no record into the registry. -/
theorem C7_port_selection :
    (∀ (inUse : Nat → Bool) (port : Nat),
        (∀ i, i < MAX_PORT_ATTEMPTS → inUse (port + i) = true) →
        serverStart inUse port = none ∧
        ∀ (self : RegistrySelf) (now : Int) (l : List InstanceInfo),
          startServerRegistry inUse port self now l = l) ∧
    (∀ (inUse : Nat → Bool) (port i : Nat),
        i < MAX_PORT_ATTEMPTS → inUse (port + i) = false →
        (∀ j, j < i → inUse (port + j) = true) →
        serverStart inUse port = some (port + i)) ∧
    (∀ (inUse : Nat → Bool) (port fuel : Nat),
        ((tryPort inUse port fuel).1.map Prod.fst) =
          List.range' port ((tryPort inUse port fuel).1.length)) := by
  refine ⟨?_, ?_, ?_⟩
  · intro inUse port h
    have hnone : serverStart inUse port = none :=
      tryPort_exhausted inUse MAX_PORT_ATTEMPTS port h
    refine ⟨hnone, ?_⟩
    intro self now l
    simp [startServerRegistry, hnone]
  · intro inUse port i hi hfree hbusy
    exact tryPort_first_free inUse MAX_PORT_ATTEMPTS i port hi hfree hbusy
  · intro inUse port fuel
    exact tryPort_attempts_consecutive inUse fuel port

/-- C7 witness: with ports 41970 and 41971 in use and 41972 free, the
bound port is 41972; with every port in use, startup fails and the
registry keeps its prior contents. -/
theorem C7_port_selection_witness :
    serverStart (fun p => p = 41970 || p = 41971) 41970 = some (41970 + 2) ∧
      startServerRegistry (fun _ => true) 41970 sampleSelf 1000 [otherRecord] =
        [otherRecord] :=
  ⟨C7_port_selection.2.1 (fun p => p = 41970 || p = 41971) 41970 2
      (by decide) (by decide) (by decide),
    (C7_port_selection.1 (fun _ => true) 41970 (fun i _ => rfl)).2
      sampleSelf 1000 [otherRecord]⟩

/-- JS `origin || undefined` is idempotent. -/
lemma jsPresent_idem (o : Option String) : jsPresent (jsPresent o) = jsPresent o := by
  cases o with
  | none => rfl
  | some s =>
    by_cases h : s = "" <;> simp [jsPresent, h]

/-- Truthy presence, unfolded: `jsPresent o = some v` says the header was
present with the non-empty value `v`. -/
lemma jsPresent_eq_some (o : Option String) (v : String) :
    jsPresent o = some v ↔ o = some v ∧ v ≠ "" := by
  cases o with
  | none => simp [jsPresent]
  | some s =>
    by_cases h : s = ""
    · subst h
      simp only [jsPresent, if_pos rfl, Option.some.injEq]
      constructor
      · intro hv
        exact absurd hv (by simp)
      · rintro ⟨hv, hne⟩
        exact absurd hv.symm hne
    · simp only [jsPresent, if_neg h, Option.some.injEq]
      constructor
      · rintro rfl
        exact ⟨rfl, h⟩
      · exact fun hv => hv.1

/-- The `Access-Control-Allow-Origin` header of a `sendJson` response is
present exactly for a truthy origin, echoed verbatim. -/
lemma ACAO_mem_sendJson (st : Nat) (d : RespBody) (o : Option String)
    (v : String) :
    ("Access-Control-Allow-Origin", v) ∈ (sendJson st d o).headers ↔
      jsPresent o = some v := by
  cases h : jsPresent o with
  | none => simp [sendJson, h]
  | some s =>
    simp [sendJson, h]
    exact eq_comm

/-- The `Access-Control-Allow-Origin` header of a preflight response is
present exactly for a truthy origin, echoed verbatim. -/
lemma ACAO_mem_handleCors (o : Option String) (v : String) :
    ("Access-Control-Allow-Origin", v) ∈ (handleCors o).headers ↔
      jsPresent o = some v := by
  cases h : jsPresent o with
  | none => simp [handleCors, h]
  | some s =>
    simp [handleCors, h]
    exact eq_comm

/-- Every outcome of the send route, the caught 500 included, is a
`sendJson` response over the route's origin. -/
lemma runSendRoute_is_sendJson (env : ServerEnv) (id : String)
    (body : JsonValue) (o : Option String) :
    ∃ st d, runSendRoute env id body o = sendJson st d o := by
  unfold runSendRoute handleSend
  by_cases h1 : (id != env.localId) = true
  · rw [if_pos h1]
    exact ⟨_, _, rfl⟩
  · rw [if_neg h1]
    cases hf : jsonField body "content" with
    | thrown msg => exact ⟨_, _, rfl⟩
    | undefined => exact ⟨_, _, rfl⟩
    | val c =>
      dsimp only
      by_cases h2 : (!contentValid c) = true
      · rw [if_pos h2]
        exact ⟨_, _, rfl⟩
      · rw [if_neg h2]
        by_cases h3 : (!env.copilotAvailable) = true
        · rw [if_pos h3]
          exact ⟨_, _, rfl⟩
        · rw [if_neg h3]
          cases hc : env.sendToCopilot with
          | ok u => exact ⟨_, _, rfl⟩
          | error m => exact ⟨_, _, rfl⟩

/-- The `Access-Control-Allow-Origin` header of a send-route response is
present exactly for a truthy origin, echoed verbatim. -/
lemma ACAO_mem_runSendRoute (env : ServerEnv) (id : String)
    (body : JsonValue) (o : Option String) (v : String) :
    ("Access-Control-Allow-Origin", v) ∈ (runSendRoute env id body o).headers ↔
      jsPresent o = some v := by
  obtain ⟨st, d, h⟩ := runSendRoute_is_sendJson env id body o
  rw [h, ACAO_mem_sendJson]

/-- Every response to an origin-approved request carries the
`Access-Control-Allow-Origin` header exactly when the request origin is
truthy, echoed verbatim. -/
lemma ACAO_mem_handleRequest (env : ServerEnv) (req : HttpRequest)
    (v : String) (hall : isAllowedOrigin req.origin = true) :
    ("Access-Control-Allow-Origin", v) ∈ (handleRequest env req).headers ↔
      jsPresent req.origin = some v := by
  unfold handleRequest handleHealth handleGetInstances
  rw [hall]
  simp only [Bool.not_true, Bool.false_eq_true, if_false]
  repeat' split
  all_goals first
    | rw [ACAO_mem_sendJson, jsPresent_idem]
    | rw [ACAO_mem_handleCors, jsPresent_idem]
    | rw [ACAO_mem_runSendRoute, jsPresent_idem]

/-- C2 counterexample: an `Origin` header that is present with the empty
value is outside the claim's permitted set (not absent, not `null`, no
extension-scheme start), yet the server processes the request (here a
`GET /health`, answered 200, not 403) because JS `!origin` also accepts
the empty string. -/
theorem C2_empty_origin_counterexample :
    (handleRequest sampleEnv
      { method := "GET", pathname := "/health", origin := some "",
        body := .parsed (.obj []) }).status = 200 ∧
    some "" ≠ (none : Option String) ∧
    ("" : String) ≠ "null" ∧
    strStartsWith "" "chrome-extension://" = false ∧
    strStartsWith "" "moz-extension://" = false ∧
    (handleRequest sampleEnv
      { method := "GET", pathname := "/health", origin := some "",
        body := .parsed (.obj []) }).status ≠ 403 := by
  refine ⟨by decide, by decide, by decide, by decide, by decide, by decide⟩

/-- C2 (amended): an origin is accepted exactly when it is absent, empty
(JS falsy), the literal `null`, or starts with an allowed
browser-extension scheme; every other origin gets a 403 with body
`{ error: "Forbidden: invalid origin" }` and a bare `Content-Type` header
(no `Access-Control-Allow-*` headers), regardless of method and path; on
accepted requests the `Access-Control-Allow-Origin` header is present
exactly when the origin is present and non-empty, echoing it verbatim;
and no response ever carries `Access-Control-Allow-Origin: *`. -/
theorem C2_origin_policy :
    (∀ o : Option String, isAllowedOrigin o = true ↔
        (o = none ∨ o = some "" ∨ o = some "null" ∨
          ∃ s, o = some s ∧
            (strStartsWith s "chrome-extension://" = true ∨
              strStartsWith s "moz-extension://" = true))) ∧
    (∀ (env : ServerEnv) (req : HttpRequest),
        isAllowedOrigin req.origin = false →
        handleRequest env req =
          { status := 403
            headers := [("Content-Type", "application/json")]
            body := .errorOnly "Forbidden: invalid origin" }) ∧
    (∀ (env : ServerEnv) (req : HttpRequest) (v : String),
        isAllowedOrigin req.origin = true →
        (("Access-Control-Allow-Origin", v) ∈ (handleRequest env req).headers ↔
          req.origin = some v ∧ v ≠ "")) ∧
    (∀ (env : ServerEnv) (req : HttpRequest) (v : String),
        ("Access-Control-Allow-Origin", v) ∈ (handleRequest env req).headers →
          v ≠ "*") := by
  have hchar : ∀ o : Option String, isAllowedOrigin o = true ↔
      (o = none ∨ o = some "" ∨ o = some "null" ∨
        ∃ s, o = some s ∧
          (strStartsWith s "chrome-extension://" = true ∨
            strStartsWith s "moz-extension://" = true)) := by
    intro o
    cases o with
    | none => simp [isAllowedOrigin]
    | some s =>
      by_cases h1 : s = ""
      · simp [isAllowedOrigin, h1]
      · by_cases h2 : s = "null"
        · simp [isAllowedOrigin, h1, h2]
        · simp [isAllowedOrigin, ALLOWED_ORIGIN_SCHEMES, h1, h2]
  have h403 : ∀ (env : ServerEnv) (req : HttpRequest),
      isAllowedOrigin req.origin = false →
      handleRequest env req =
        { status := 403
          headers := [("Content-Type", "application/json")]
          body := .errorOnly "Forbidden: invalid origin" } := by
    intro env req h
    unfold handleRequest
    rw [h]
    rfl
  have hecho : ∀ (env : ServerEnv) (req : HttpRequest) (v : String),
      isAllowedOrigin req.origin = true →
      (("Access-Control-Allow-Origin", v) ∈ (handleRequest env req).headers ↔
        req.origin = some v ∧ v ≠ "") := by
    intro env req v hall
    rw [ACAO_mem_handleRequest env req v hall, jsPresent_eq_some]
  refine ⟨hchar, h403, hecho, ?_⟩
  intro env req v hmem
  by_cases hall : isAllowedOrigin req.origin = true
  · rcases (hecho env req v hall).mp hmem with ⟨horig, hne⟩
    intro hstar
    subst hstar
    rw [horig] at hall
    exact absurd hall (by decide)
  · rw [Bool.not_eq_true] at hall
    rw [h403 env req hall] at hmem
    simp at hmem

/-- C2 witness: the echo property applied to a concrete allowed
extension origin on `GET /health`. -/
theorem C2_origin_policy_witness :
    ("Access-Control-Allow-Origin", "chrome-extension://abc") ∈
        (handleRequest sampleEnv
          { method := "GET", pathname := "/health",
            origin := some "chrome-extension://abc",
            body := .parsed (.obj []) }).headers ↔
      (some "chrome-extension://abc" = some "chrome-extension://abc" ∧
        ("chrome-extension://abc" : String) ≠ "") :=
  C2_origin_policy.2.2.1 sampleEnv
    { method := "GET", pathname := "/health",
      origin := some "chrome-extension://abc", body := .parsed (.obj []) }
    "chrome-extension://abc" (by decide)

/-- C3: a `POST /instance/{id}/send` whose `{id}` differs from this
instance's id is answered 404 with `Instance not found on this server` —
`handleSend` rejects before any other check, and the full request pipeline
(origin-approved, parsed body) produces the same 404; nothing is
forwarded. -/
theorem C3_wrong_id_404 :
    (∀ (env : ServerEnv) (id : String) (body : JsonValue)
        (origin : Option String), id ≠ env.localId →
        handleSend env id body origin =
          .ok (sendJson 404
            (.send false (some "Instance not found on this server"))
            origin)) ∧
    (∀ (env : ServerEnv) (req : HttpRequest) (id : String) (v : JsonValue),
        isAllowedOrigin req.origin = true → req.method = "POST" →
        matchSendPath req.pathname = some id → req.body = .parsed v →
        id ≠ env.localId →
        (handleRequest env req).status = 404 ∧
        (handleRequest env req).body =
          .send false (some "Instance not found on this server")) := by
  have hsend : ∀ (env : ServerEnv) (id : String) (body : JsonValue)
      (origin : Option String), id ≠ env.localId →
      handleSend env id body origin =
        .ok (sendJson 404
          (.send false (some "Instance not found on this server"))
          origin) := by
    intro env id body origin h
    have hb : (id != env.localId) = true := by simpa [bne_iff_ne] using h
    simp [handleSend, hb]
  refine ⟨hsend, ?_⟩
  intro env req id v hall hm hp hb hne
  have hreq : handleRequest env req =
      sendJson 404 (.send false (some "Instance not found on this server"))
        (jsPresent req.origin) := by
    unfold handleRequest
    rw [hall]
    simp only [Bool.not_true, Bool.false_eq_true, if_false]
    rw [hm, hp, hb]
    simp only [String.reduceEq, if_false, Bool.and_self, if_true,
      Bool.false_and]
    unfold runSendRoute
    rw [hsend env id v (jsPresent req.origin) hne]
    rfl
  rw [hreq]
  exact ⟨rfl, rfl⟩


/-- C3 witness: a send addressed to a foreign id on a concrete server. -/
theorem C3_wrong_id_404_witness :
    handleSend sampleEnv "other" (.obj []) none =
        .ok (sendJson 404
          (.send false (some "Instance not found on this server")) none) ∧
      (handleRequest sampleEnv
          { method := "POST", pathname := "/instance/other/send",
            origin := none,
            body := .parsed (.obj [("content", .str "hi")]) }).status = 404 :=
  ⟨C3_wrong_id_404.1 sampleEnv "other" (.obj []) none (by decide),
    (C3_wrong_id_404.2 sampleEnv
      { method := "POST", pathname := "/instance/other/send", origin := none,
        body := .parsed (.obj [("content", .str "hi")]) }
      "other" (.obj [("content", .str "hi")])
      (by decide) rfl (by decide) rfl (by decide)).1⟩

/-- C4 counterexample: a `POST /instance/{id}/send` addressed to this
instance's own id is answered 500, not 400, both when the body is not
valid JSON (the `parseBody` rejection escapes to the generic catch
handler) and when the body is the JSON value `null` — `content` is then
as missing as it gets, yet `!body.content` throws a `TypeError` that the
same catch answers with 500. -/
theorem C4_body_500_counterexample :
    (handleRequest sampleEnv
      { method := "POST", pathname := "/instance/me/send", origin := none,
        body := .invalidJson }).status = 500 ∧
    (handleRequest sampleEnv
      { method := "POST", pathname := "/instance/me/send", origin := none,
        body := .invalidJson }).status ≠ 400 ∧
    (handleRequest sampleEnv
      { method := "POST", pathname := "/instance/me/send", origin := none,
        body := .parsed .null }).status = 500 ∧
    (handleRequest sampleEnv
      { method := "POST", pathname := "/instance/me/send", origin := none,
        body := .parsed .null }).status ≠ 400 := by
  refine ⟨by decide, by decide, by decide, by decide⟩

/-- C4 (amended): for a `POST /instance/{id}/send` addressed to this
instance's own id (origin approved), a body that parses as a JSON value
other than `null` whose `content` field is missing or reads a non-string
(or empty-string, falsy in JS) value is answered 400
`Missing or invalid content`; a body that is not valid JSON is answered
500 with the parse error `Invalid JSON`; and the JSON body `null` is also
answered 500 — the `content` read throws a `TypeError` into the same
catch — never 400. -/
theorem C4_body_validation :
    ∀ (env : ServerEnv) (req : HttpRequest) (id : String),
      isAllowedOrigin req.origin = true → req.method = "POST" →
      matchSendPath req.pathname = some id → id = env.localId →
      ((req.body = .invalidJson →
          handleRequest env req =
            sendJson 500 (.errorOnly "Invalid JSON") (jsPresent req.origin)) ∧
        (req.body = .parsed .null →
          handleRequest env req =
            sendJson 500 (.errorOnly (nullFieldReadError "content"))
              (jsPresent req.origin)) ∧
        (∀ v : JsonValue, req.body = .parsed v →
          jsonField v "content" = .undefined →
          handleRequest env req =
            sendJson 400 (.send false (some "Missing or invalid content"))
              (jsPresent req.origin)) ∧
        (∀ (v c : JsonValue), req.body = .parsed v →
          jsonField v "content" = .val c → contentValid c = false →
          handleRequest env req =
            sendJson 400 (.send false (some "Missing or invalid content"))
              (jsPresent req.origin))) := by
  intro env req id hall hm hp hid
  have hbne : (id != env.localId) = false := by
    simp [bne_eq_false_iff_eq, hid]
  have hroute : ∀ v : JsonValue, req.body = .parsed v →
      handleRequest env req = runSendRoute env id v (jsPresent req.origin) := by
    intro v hb
    unfold handleRequest
    rw [hall]
    simp only [Bool.not_true, Bool.false_eq_true, if_false]
    rw [hm, hp, hb]
    simp
  refine ⟨?_, ?_, ?_, ?_⟩
  · intro hb
    unfold handleRequest
    rw [hall]
    simp only [Bool.not_true, Bool.false_eq_true, if_false]
    rw [hm, hp, hb]
    simp [parseErrorMessage]
  · intro hb
    rw [hroute .null hb]
    simp [runSendRoute, handleSend, hbne, jsonField]
  · intro v hb hf
    rw [hroute v hb]
    simp [runSendRoute, handleSend, hbne, hf]
  · intro v c hb hf hc
    rw [hroute v hb]
    simp [runSendRoute, handleSend, hbne, hf, hc]

/-- C4 witness: a valid-JSON object body with no `content` field gets 400
on the own-id route. -/
theorem C4_body_validation_witness :
    handleRequest sampleEnv
        { method := "POST", pathname := "/instance/me/send", origin := none,
          body := .parsed (.obj []) } =
      sendJson 400 (.send false (some "Missing or invalid content")) none :=
  (C4_body_validation sampleEnv
      { method := "POST", pathname := "/instance/me/send", origin := none,
        body := .parsed (.obj []) }
      "me" (by decide) rfl (by decide) (by decide)).2.2.1
    (.obj []) rfl rfl

/-- C10: error precedence on the send route with a valid-JSON body — a
foreign `{id}` is answered 404 whatever the body (the JSON `null` body
included: the id check precedes the `content` read) and whatever the
Copilot state; with the right id, a missing or invalid (non-throwing)
`content` read is answered 400 whether or not Copilot is available; only
with the right id and valid content does the Copilot-availability (503)
check run. -/
theorem C10_send_error_precedence :
    ∀ (env : ServerEnv) (req : HttpRequest) (id : String) (v : JsonValue),
      isAllowedOrigin req.origin = true → req.method = "POST" →
      matchSendPath req.pathname = some id → req.body = .parsed v →
      ((id ≠ env.localId → (handleRequest env req).status = 404) ∧
        (id = env.localId → jsonField v "content" = .undefined →
          (handleRequest env req).status = 400) ∧
        (∀ c : JsonValue, id = env.localId →
          jsonField v "content" = .val c → contentValid c = false →
          (handleRequest env req).status = 400) ∧
        (∀ c : JsonValue, id = env.localId →
          jsonField v "content" = .val c → contentValid c = true →
          env.copilotAvailable = false →
          (handleRequest env req).status = 503)) := by
  intro env req id v hall hm hp hb
  have hroute : handleRequest env req =
      runSendRoute env id v (jsPresent req.origin) := by
    unfold handleRequest
    rw [hall]
    simp only [Bool.not_true, Bool.false_eq_true, if_false]
    rw [hm, hp, hb]
    simp
  refine ⟨?_, ?_, ?_, ?_⟩
  · intro hne
    have hbne : (id != env.localId) = true := by simpa [bne_iff_ne] using hne
    rw [hroute]
    simp [runSendRoute, handleSend, hbne, sendJson]
  · intro hid hf
    have hbne : (id != env.localId) = false := by
      simp [bne_eq_false_iff_eq, hid]
    rw [hroute]
    simp [runSendRoute, handleSend, hbne, hf, sendJson]
  · intro c hid hf hcontent
    have hbne : (id != env.localId) = false := by
      simp [bne_eq_false_iff_eq, hid]
    rw [hroute]
    simp [runSendRoute, handleSend, hbne, hf, hcontent, sendJson]
  · intro c hid hf hcontent hcop
    have hbne : (id != env.localId) = false := by
      simp [bne_eq_false_iff_eq, hid]
    rw [hroute]
    simp [runSendRoute, handleSend, hbne, hf, hcontent, hcop, sendJson]

/-- C10 witness: with the wrong id and a body that also lacks `content`,
the response is 404, not 400. -/
theorem C10_send_error_precedence_witness :
    (handleRequest sampleEnv
        { method := "POST", pathname := "/instance/other/send",
          origin := none, body := .parsed (.obj []) }).status = 404 :=
  (C10_send_error_precedence sampleEnv
      { method := "POST", pathname := "/instance/other/send", origin := none,
        body := .parsed (.obj []) }
      "other" (.obj []) (by decide) rfl (by decide) rfl).1 (by decide)

/-- C6 counterexample: a probe that answers within the timeout with a
matching `instanceId` but `healthy: false` — the record is dropped by
`discoverInstances` although, per the claim, the probe succeeded and the
ids agree. -/
theorem C6_unhealthy_counterexample :
    discoverVerify unhealthyProbe [boundaryRecord] = [] ∧
      unhealthyProbe boundaryRecord.port = some unhealthyReport ∧
      unhealthyReport.instanceId = boundaryRecord.id := by
  refine ⟨by decide, by decide, by decide⟩

/-- C6 (amended): a record obtained from `GET /instances` is kept in the
verified set exactly when its own port's `/health` probe answers within
the timeout, the answer reports `healthy`, and the reported `instanceId`
equals the record's id; a record failing any of the checks is dropped
from the result (not reported as an error). -/
theorem C6_discovery_verification :
    ∀ (probe : Nat → Option HealthResponse) (l : List InstanceInfo)
      (r : InstanceInfo), r ∈ l →
      (r ∈ discoverVerify probe l ↔
        ∃ h, probe r.port = some h ∧ h.healthy = true ∧
          h.instanceId = r.id) := by
  intro probe l r hr
  rw [discoverVerify, List.mem_filter]
  cases hp : probe r.port with
  | none => simp [hr, hp]
  | some h => simp [hr, hp]

/-- C6 witness: a healthy, id-matching probe keeps the record. -/
theorem C6_discovery_verification_witness :
    otherRecord ∈ discoverVerify (fun _ => some healthyReport) [otherRecord] ↔
      ∃ h, (fun _ : Nat => some healthyReport) otherRecord.port = some h ∧
        h.healthy = true ∧ h.instanceId = otherRecord.id :=
  C6_discovery_verification (fun _ => some healthyReport) [otherRecord]
    otherRecord (by decide)

/-- Absent case of the heartbeat modifier: when no record carries this
instance's id, the full record is appended at the end. -/
lemma updateHeartbeatModifier_absent (self : RegistrySelf) (now : Int) :
    ∀ l : List InstanceInfo, (∀ r ∈ l, r.id ≠ self.instanceId) →
      updateHeartbeatModifier self now l = l ++ [selfRecord self now] := by
  intro l h
  induction l with
  | nil => rfl
  | cons i rest ih =>
    have hi : i.id ≠ self.instanceId := h i (List.mem_cons_self i rest)
    rw [updateHeartbeatModifier, if_neg hi,
      ih (fun r hr => h r (List.mem_cons_of_mem i hr))]
    rfl

/-- Found case of the heartbeat modifier: the first record with this
instance's id gets `lastHeartbeat := now` and `port := bound port`; every
record before and after it is untouched. -/
lemma updateHeartbeatModifier_found (self : RegistrySelf) (now : Int) :
    ∀ (l1 : List InstanceInfo) (i : InstanceInfo) (l2 : List InstanceInfo),
      (∀ j ∈ l1, j.id ≠ self.instanceId) → i.id = self.instanceId →
      updateHeartbeatModifier self now (l1 ++ i :: l2) =
        l1 ++ { i with lastHeartbeat := now, port := self.port } :: l2 := by
  intro l1
  induction l1 with
  | nil =>
    intro i l2 _ hi
    simp [updateHeartbeatModifier, hi]
  | cons j rest ih =>
    intro i l2 hj hi
    have hjne : j.id ≠ self.instanceId := hj j (List.mem_cons_self j rest)
    simp only [List.cons_append, updateHeartbeatModifier, if_neg hjne]
    exact congrArg (fun t => j :: t)
      (ih i l2 (fun a ha => hj a (List.mem_cons_of_mem j ha)) hi)

/-- Two consecutive runs of the heartbeat modifier agree with one run up
to `lastHeartbeat`. -/
lemma updateHeartbeatModifier_twice (self : RegistrySelf) (t1 t2 : Int) :
    ∀ l : List InstanceInfo,
      (updateHeartbeatModifier self t2
          (updateHeartbeatModifier self t1 l)).map stripHeartbeat =
        (updateHeartbeatModifier self t1 l).map stripHeartbeat := by
  intro l
  induction l with
  | nil => simp [updateHeartbeatModifier, selfRecord, stripHeartbeat]
  | cons i rest ih =>
    by_cases hi : i.id = self.instanceId
    · simp [updateHeartbeatModifier, hi, stripHeartbeat]
    · simp [updateHeartbeatModifier, hi, ih]

/-- C8: a heartbeat tick updates only this instance's (first) record,
setting `lastHeartbeat := now` and `port := bound port` while preserving
its `id`, `name`, `workspacePath` and `pid` and leaving every other record
unchanged; when the record is absent a full record is appended; and two
back-to-back heartbeats with no other writer (and no record crossing the
stale threshold in between) produce the same list of records up to
`lastHeartbeat`. -/
theorem C8_heartbeat_frame :
    (∀ (self : RegistrySelf) (now : Int) (l1 l2 : List InstanceInfo)
        (i : InstanceInfo),
        (∀ j ∈ l1, j.id ≠ self.instanceId) → i.id = self.instanceId →
        updateHeartbeatModifier self now (l1 ++ i :: l2) =
          l1 ++ { i with lastHeartbeat := now, port := self.port } :: l2) ∧
    (∀ (self : RegistrySelf) (now : Int) (i : InstanceInfo),
        ({ i with lastHeartbeat := now, port := self.port } : InstanceInfo).id
            = i.id ∧
        ({ i with lastHeartbeat := now, port := self.port } : InstanceInfo).name
            = i.name ∧
        ({ i with lastHeartbeat := now, port := self.port } : InstanceInfo).workspacePath
            = i.workspacePath ∧
        ({ i with lastHeartbeat := now, port := self.port } : InstanceInfo).pid
            = i.pid) ∧
    (∀ (self : RegistrySelf) (now : Int) (l : List InstanceInfo),
        (∀ r ∈ l, r.id ≠ self.instanceId) →
        updateHeartbeatModifier self now l = l ++ [selfRecord self now]) ∧
    (∀ (self : RegistrySelf) (t1 t2 : Int) (l : List InstanceInfo),
        (∀ r ∈ updateHeartbeat self t1 l,
          t2 - r.lastHeartbeat < STALE_THRESHOLD) →
        (updateHeartbeat self t2 (updateHeartbeat self t1 l)).map
            stripHeartbeat =
          (updateHeartbeat self t1 l).map stripHeartbeat) := by
  refine ⟨?_, ?_, ?_, ?_⟩
  · intro self now l1 l2 i h1 hi
    exact updateHeartbeatModifier_found self now l1 i l2 h1 hi
  · intro self now i
    exact ⟨rfl, rfl, rfl, rfl⟩
  · intro self now l h
    exact updateHeartbeatModifier_absent self now l h
  · intro self t1 t2 l h
    have h2 : cleanStaleInstances t2 (updateHeartbeat self t1 l) =
        updateHeartbeat self t1 l :=
      cleanStaleInstances_of_fresh t2 _ h
    show (updateHeartbeatModifier self t2
        (cleanStaleInstances t2 (updateHeartbeat self t1 l))).map
          stripHeartbeat = _
    rw [h2]
    exact updateHeartbeatModifier_twice self t1 t2 (cleanStaleInstances t1 l)

/-- C8 witness: two back-to-back heartbeats over a fresh registry. -/
theorem C8_heartbeat_frame_witness :
    (updateHeartbeat sampleSelf 2000
        (updateHeartbeat sampleSelf 1000 [otherRecord])).map stripHeartbeat =
      (updateHeartbeat sampleSelf 1000 [otherRecord]).map stripHeartbeat :=
  C8_heartbeat_frame.2.2.2 sampleSelf 1000 2000 [otherRecord] (by decide)

/-- C9: registering and then immediately unregistering, with no other
writer, restores the previous registry contents exactly (even the order),
provided the other records carry foreign ids and stay fresh over the two
writes. -/
theorem C9_register_unregister_roundtrip :
    ∀ (self : RegistrySelf) (t1 t2 : Int) (l : List InstanceInfo),
      (∀ r ∈ l, r.id ≠ self.instanceId) →
      (∀ r ∈ l, t2 - r.lastHeartbeat < STALE_THRESHOLD) →
      t1 ≤ t2 →
      unregister self t2 (register self t1 l) = l := by
  intro self t1 t2 l hid hfresh h12
  have hfresh1 : ∀ r ∈ l, t1 - r.lastHeartbeat < STALE_THRESHOLD := by
    intro r hr
    exact lt_of_le_of_lt (sub_le_sub_right h12 r.lastHeartbeat) (hfresh r hr)
  have hfilter : l.filter (fun i => i.id != self.instanceId) = l := by
    apply List.filter_eq_self.mpr
    intro a ha
    simpa [bne_iff_ne] using hid a ha
  have hreg : register self t1 l = l ++ [selfRecord self t1] := by
    unfold register modifyRegistry registerModifier
    rw [cleanStaleInstances_of_fresh t1 l hfresh1, hfilter]
  have hnil : (cleanStaleInstances t2 [selfRecord self t1]).filter
      (fun i => i.id != self.instanceId) = [] := by
    apply List.filter_eq_nil_iff.mpr
    intro a ha
    have : a ∈ [selfRecord self t1] :=
      ((mem_cleanStaleInstances t2 [selfRecord self t1] a).mp ha).1
    simp at this
    subst this
    simp [selfRecord]
  have hunreg : unregister self t2 (l ++ [selfRecord self t1]) =
      (cleanStaleInstances t2 (l ++ [selfRecord self t1])).filter
        (fun i => i.id != self.instanceId) := rfl
  rw [hreg, hunreg, cleanStaleInstances_append,
    cleanStaleInstances_of_fresh t2 l hfresh, List.filter_append, hfilter,
    hnil]
  simp

/-- C9 witness: register then unregister over a one-record registry. -/
theorem C9_register_unregister_roundtrip_witness :
    unregister sampleSelf 2000 (register sampleSelf 1000 [otherRecord]) =
      [otherRecord] :=
  C9_register_unregister_roundtrip sampleSelf 1000 2000 [otherRecord]
    (by decide) (by decide) (by decide)

end ClankerContext

